import Mathlib

/-!
Verification development for the radargram digitization front-end
(`PFA_website`).  The JavaScript annotation engine is shallowly embedded:
coordinates are modelled as exact rationals (the code stores IEEE doubles
and only compares, scales and rescales them), fallible operations return
`Option`, DOM / rendering side effects are dropped, and the user-facing
message channel is modelled as the list of messages emitted by a call.
-/

namespace PFA

/-- A polyline vertex.  Leaflet stores `{lat, lng}`; the horizontal axis
used by the validator and the split operator is `lng`, called `x` here,
and `lat` is `y`. -/
structure Vertex where
  x : ℚ
  y : ℚ
deriving DecidableEq

/-- Registry entry: display name, color and (self-referential) key, as
built by `get_layer_classes` in the source. -/
structure ClassProps where
  name : String
  color : String
  key : String
deriving DecidableEq

/-- The classification registry from `get_layer_classes` (association
list in source insertion order; the source also stores each key inside
its entry). -/
def get_layer_classes : List (String × ClassProps) :=
  [("firn_ice_interface", ⟨"Firn-ice interface", "#002EBD", "firn_ice_interface"⟩),
   ("water_table", ⟨"Water table", "#CE00FF", "water_table"⟩),
   ("crevasse", ⟨"Crevasse", "#62F700", "crevasse"⟩),
   ("hyperbola", ⟨"Hyperbola", "red", "hyperbola"⟩)]

/-- The issue string pushed by `validate_polyline` for an overhang at
vertex `i`. -/
def issue_text (i : ℕ) : String :=
  "Line contains an overhang (vertex " ++ toString i ++ ")"

/-- The flagging condition of the loop body of `validate_polyline`:
`(increasing && latlngs[i].lng <= latlngs[i-1].lng) ||
 (!increasing && latlngs[i].lng >= latlngs[i-1].lng)`,
with `prev = latlngs[i-1].lng` and `cur = latlngs[i].lng`. -/
def overhang_flag (increasing : Bool) (prev cur : ℚ) : Bool :=
  (increasing && decide (cur ≤ prev)) || (!increasing && decide (prev ≤ cur))

/-- The scan `for (var i = 1; i < latlngs.length; i++)` of
`validate_polyline`, collecting issue strings; `i` is the index the next
pair's issue would report. -/
def overhang_scan (increasing : Bool) : List Vertex → ℕ → List String
  | v :: w :: rest, i =>
      (if overhang_flag increasing v.x w.x then [issue_text i] else [])
        ++ overhang_scan increasing (w :: rest) (i + 1)
  | _, _ => []

/-- Array indexing `latlngs[i]` (JS yields `undefined` out of range; the
source only indexes in range, so the default is irrelevant). -/
def vtx (vs : List Vertex) (i : ℕ) : Vertex :=
  vs.getD i ⟨0, 0⟩

/-- `var increasing = latlngs[0].lng < latlngs[latlngs.length - 1].lng`. -/
def line_increasing (vs : List Vertex) : Bool :=
  decide ((vtx vs 0).x < (vtx vs (vs.length - 1)).x)

/-- `validate_polyline` (marker bookkeeping, alert and dash styling are
rendering side effects and are dropped): returns the issues list. -/
def validate_polyline (latlngs : List Vertex) : List String :=
  if latlngs.length < 2 then []
  else overhang_scan (line_increasing latlngs) latlngs 1

/-- One drawn feature: the layer plus the ad hoc `properties` the source
attaches (`kind`, `color`, `name`, `issues`) and its vertex list. -/
structure Feature where
  kind : String
  color : String
  name : String
  issues : List String
  vertices : List Vertex
deriving DecidableEq

/-- `change_layer_kind(layer, new_kind)`.  The source sets
`properties.kind = new_kind` first and only then reads
`class_props.color`; when `new_kind` is not a registry key that read
throws a `TypeError`, so on failure (`Bool` result `false`) the returned
feature already carries the new kind while color and name are untouched. -/
def change_layer_kind (f : Feature) (new_kind : String) : Feature × Bool :=
  let f1 := { f with kind := new_kind }
  match (get_layer_classes).lookup new_kind with
  | none => (f1, false)
  | some props => ({ f1 with color := props.color, name := props.name }, true)

/-- `create_polyline(coords, drawn_items, kind)` followed by
`add_polyline_metadata`: derives color/name from the registry, validates
the coordinates, and yields the new feature.  A `kind` of `none` models
the JS `undefined` kind; a kind missing from the registry makes
`change_layer_kind` throw before the layer is added, modelled as `none`. -/
def create_polyline (coords : List Vertex) (kind : Option String) : Option Feature :=
  match kind with
  | none => none
  | some k =>
    match (get_layer_classes).lookup k with
    | none => none
    | some props =>
      some { kind := k, color := props.color, name := props.name,
             issues := validate_polyline coords, vertices := coords }

/-- The inner `forEach` of `split_polyline` for pass `i` (`0` or `1`):
skips a vertex when `(i == 0 && lng > x) || (i == 1 && lng < x)`,
inserting the cut point `(x_coord, y_coord)` the first time a vertex is
skipped (`done` flag), and keeps every other vertex. -/
def split_polyline_coords (x y : ℚ) (i : ℕ) : List Vertex → Bool → List Vertex
  | [], _ => []
  | v :: rest, done =>
    if (i = 0 ∧ x < v.x) ∨ (i = 1 ∧ v.x < x) then
      (if done then [] else [⟨x, y⟩]) ++ split_polyline_coords x y i rest true
    else
      v :: split_polyline_coords x y i rest done

/-- `split_polyline(layer, x_coord, y_coord, drawn_items)`: creates the
two children via `create_polyline` with the parent's kind, then removes
the parent layer.  If the parent's kind is not in the registry,
`create_polyline` throws in the first pass and nothing changes. -/
def split_polyline (f : Feature) (x y : ℚ) (items : List Feature) : List Feature :=
  match create_polyline (split_polyline_coords x y 0 f.vertices false) (some f.kind),
        create_polyline (split_polyline_coords x y 1 f.vertices false) (some f.kind) with
  | some a, some b => (items ++ [a, b]).erase f
  | _, _ => items

/-- GeoJSON geometry of a persisted feature: a `LineString` with
`[x, y]` coordinate pairs, or any other geometry type (only its
not-being-a-line matters to the loader). -/
inductive Geometry
  | lineString (coordinates : List (ℚ × ℚ))
  | other
deriving DecidableEq

/-- A feature of a persisted document: the GeoJSON properties the
serializer writes (`kind`, `name`, `color`, `issues`; `kind`/`name` may
be absent in legacy documents) plus the geometry. -/
structure PersistedFeature where
  kind : Option String
  name : Option String
  color : Option String
  issues : List String
  geometry : Geometry
deriving DecidableEq

/-- The wire/storage document built by `make_feature_save_json`. -/
structure PersistedDocument where
  date_modified : String
  height : ℕ
  width : ℕ
  difficulty : Option String
  comment : Option String
  radar_key : String
  features : List PersistedFeature
deriving DecidableEq

/-- The immutable per-radargram constants of the session. -/
structure RadargramMeta where
  radar_key : String
  width : ℕ
  height : ℕ
  xscale : ℚ
deriving DecidableEq

/-- The mutable session state touched by loading: the drawn feature set
and the session-editable `meta.comment` / `meta.difficulty` fields
(`none` models JS `null`). -/
structure Session where
  drawn_items : List Feature
  comment : Option String
  difficulty : Option String
deriving DecidableEq

/-- `layer.toGeoJSON()` with `geojson.properties = layer.properties`:
geometry coordinates are `[lng, lat]` pairs, i.e. `(x, y)`. -/
def feature_to_geojson (f : Feature) : PersistedFeature :=
  { kind := some f.kind, name := some f.name, color := some f.color,
    issues := f.issues,
    geometry := Geometry.lineString (f.vertices.map fun v => (v.x, v.y)) }

/-- The xscaling step of `make_feature_save_json`: divides each
coordinate's first component by `xscale`. -/
def scale_feature (xscale : ℚ) (pf : PersistedFeature) : PersistedFeature :=
  { pf with
    geometry :=
      match pf.geometry with
      | Geometry.lineString coords =>
          Geometry.lineString (coords.map fun c => (c.1 / xscale, c.2))
      | g => g }

/-- `make_feature_save_json(drawn_items, meta)`: flattens the drawn
features into a FeatureCollection, divides `x` by `xscale` unless
`xscale == 1`, and wraps the metadata (`meta.comment || null` maps the
empty string to `null`). -/
def make_feature_save_json (s : Session) (meta : RadargramMeta) (date : String) :
    PersistedDocument :=
  let feats := s.drawn_items.map feature_to_geojson
  let feats := if meta.xscale ≠ 1 then feats.map (scale_feature meta.xscale) else feats
  { date_modified := date, height := meta.height, width := meta.width,
    difficulty := s.difficulty,
    comment := if s.comment = some "" then none else s.comment,
    radar_key := meta.radar_key,
    features := feats }

/-- The message `user_message` shows for a `radar_key`/`width`/`height`
mismatch in `load_digitized_inner`. -/
def mismatch_message (key got expected : String) : String :=
  "Error loading data: " ++ key ++ " (" ++ got ++ ") does not align with expected "
    ++ key ++ " (" ++ expected ++ ")"

/-- Kind resolution of the loader: `properties.kind`, falling back to a
registry scan matching `properties.name` when the kind is absent
(legacy documents). -/
def resolve_kind (pf : PersistedFeature) : Option String :=
  match pf.kind with
  | some k => some k
  | none =>
      ((get_layer_classes).find? fun c => pf.name == some c.2.name).map fun c => c.1

/-- One iteration of the feature loop of `load_digitized_inner` for a
line feature: rescale the coordinates (`[pair[1], pair[0] * xscale]`)
and build the layer through `create_polyline`.  `none` for a non-line
geometry or an unresolvable kind. -/
def load_one_feature (xscale : ℚ) (pf : PersistedFeature) : Option Feature :=
  match pf.geometry with
  | Geometry.other => none
  | Geometry.lineString coords =>
      create_polyline (coords.map fun pair => (⟨pair.1 * xscale, pair.2⟩ : Vertex))
        (resolve_kind pf)

/-- The feature loop of `load_digitized_inner`: accumulates created
layers; a non-`LineString` geometry reports the skip message and
returns at once (the remaining features are never visited); a kind that
does not resolve throws, caught as the parse-error message; on normal
completion the loaded count is reported. -/
def load_features (xscale : ℚ) : List PersistedFeature → List Feature →
    List Feature × List String
  | [], acc => (acc, ["Loaded " ++ toString acc.length ++ " line(s)"])
  | pf :: rest, acc =>
    match pf.geometry with
    | Geometry.other =>
        (acc, ["Skipped loading of one feature as it was the wrong type"])
    | Geometry.lineString coords =>
      match create_polyline (coords.map fun pair => (⟨pair.1 * xscale, pair.2⟩ : Vertex))
              (resolve_kind pf) with
      | none => (acc, ["Error parsing data. Please check your file"])
      | some feat => load_features xscale rest (acc ++ [feat])

/-- `load_digitized_inner(data, meta, drawn_items)`: checks
`radar_key`, `width`, `height` in order against the session meta and
rejects on the first mismatch before touching anything; otherwise
copies `comment`/`difficulty` from the document, clears the layer set
and runs the feature loop.  Returns the new session state and the
emitted user messages. -/
def load_digitized_inner (data : PersistedDocument) (meta : RadargramMeta)
    (s : Session) : Session × List String :=
  if data.radar_key ≠ meta.radar_key then
    (s, [mismatch_message "radar_key" data.radar_key meta.radar_key])
  else if data.width ≠ meta.width then
    (s, [mismatch_message "width" (toString data.width) (toString meta.width)])
  else if data.height ≠ meta.height then
    (s, [mismatch_message "height" (toString data.height) (toString meta.height)])
  else
    let loaded := load_features meta.xscale data.features []
    ({ drawn_items := loaded.1, comment := data.comment, difficulty := data.difficulty },
     loaded.2)

/-- Outcome of the `fetch` in `submit_digitized`: a response whose body
parses to JSON with an optional `message` field, a response whose body
fails to parse, or a network error. -/
inductive FetchOutcome
  | networkError
  | badJson (status : ℕ)
  | json (status : ℕ) (message : Option String)
deriving DecidableEq

/-- What `submit_digitized` reports through `user_message`. -/
inductive SubmitReport
  | notLoggedIn
  | success (message : Option String)
  | submitError
deriving DecidableEq

/-- `submit_digitized(data)` response handling: a 401 status reports the
re-login message and returns; otherwise the body is parsed and
`result.message` is reported with success styling (the HTTP status is
not consulted again); a parse or network failure lands in the `catch`
and reports the generic error message. -/
def submit_digitized (outcome : FetchOutcome) : SubmitReport :=
  match outcome with
  | FetchOutcome.networkError => SubmitReport.submitError
  | FetchOutcome.badJson status =>
      if status = 401 then SubmitReport.notLoggedIn else SubmitReport.submitError
  | FetchOutcome.json status message =>
      if status = 401 then SubmitReport.notLoggedIn else SubmitReport.success message

/-- The state the submit interaction reads and writes: the drawn
feature set and the `data_saved` flag (the negation of the
unsaved-changes flag). -/
structure ClickState where
  drawn_items : List Feature
  data_saved : Bool
deriving DecidableEq

/-- How `submit_button.onclick` ends. -/
inductive GateOutcome
  | errDifficulty
  | errEmpty
  | errIssues (n : ℕ)
  | cancelled
  | dispatched
deriving DecidableEq

/-- `submit_button.onclick`: rejects when `meta["difficulty"] === null`,
when the layer set is empty, or when re-running `validate_polyline`
over every layer finds any with issues; then asks for confirmation;
only after all of that does it build the payload, call
`submit_digitized` (outcome `dispatched`) and set `data_saved = true`. -/
def submit_click (difficulty : Option String) (confirmed : Bool) (st : ClickState) :
    ClickState × GateOutcome :=
  if difficulty = none then (st, GateOutcome.errDifficulty)
  else if st.drawn_items.length = 0 then (st, GateOutcome.errEmpty)
  else
    let n := (st.drawn_items.filter fun f => !(validate_polyline f.vertices).isEmpty).length
    if 0 < n then (st, GateOutcome.errIssues n)
    else if !confirmed then (st, GateOutcome.cancelled)
    else ({ st with data_saved := true }, GateOutcome.dispatched)

/-- Completion of the fire-and-forget `submit_digitized(output)` call:
the response handler only emits a user message; it reads and writes no
session state. -/
def submit_respond (st : ClickState) (outcome : FetchOutcome) :
    ClickState × SubmitReport :=
  (st, submit_digitized outcome)

/-- The spec reading of "the pair `(a, b)` moves in the same horizontal
direction as the displacement `d`": a strict move matching the sign of
a nonzero displacement.  A zero displacement has no direction, so no
pair moves in its direction. -/
def same_direction (d a b : ℚ) : Prop :=
  (0 < d ∧ a < b) ∨ (d < 0 ∧ b < a)

instance (d a b : ℚ) : Decidable (same_direction d a b) :=
  inferInstanceAs (Decidable ((0 < d ∧ a < b) ∨ (d < 0 ∧ b < a)))

/-! Concrete fixtures used by witnesses and counterexamples. -/

/-- A well-formed water-table feature whose two vertices move strictly
rightwards, so it validates cleanly. -/
def exFeatureOk : Feature :=
  { kind := "water_table", color := "#CE00FF", name := "Water table",
    issues := [], vertices := [⟨0, 0⟩, ⟨5, 0⟩] }

/-- Scenario B vertices. -/
def exSeqB : List Vertex := [⟨0, 0⟩, ⟨5, 0⟩, ⟨3, 0⟩]

/-- Scenario D vertices. -/
def exSeqD : List Vertex := [⟨0, 0⟩, ⟨2, 0⟩, ⟨4, 0⟩, ⟨6, 0⟩]

/-- A crevasse feature carrying the Scenario D vertices. -/
def exFeatureD : Feature :=
  { kind := "crevasse", color := "#62F700", name := "Crevasse",
    issues := [], vertices := exSeqD }

/-- A session meta with `radar_key = "b"` and unit xscale. -/
def exMeta : RadargramMeta :=
  { radar_key := "b", width := 100, height := 50, xscale := 1 }

/-- A session meta with `xscale = 2`. -/
def exMeta2 : RadargramMeta :=
  { radar_key := "b", width := 100, height := 50, xscale := 2 }

/-- A running session holding one drawn feature. -/
def exSession : Session :=
  { drawn_items := [exFeatureOk], comment := some "c", difficulty := some "normal" }

/-- A fresh, empty session. -/
def exSessionEmpty : Session :=
  { drawn_items := [], comment := none, difficulty := none }

/-- Scenario C document: `radar_key = "a"` against the session's `"b"`. -/
def exDocMismatch : PersistedDocument :=
  { date_modified := "2025-01-01T00:00:00Z", height := 50, width := 100,
    difficulty := some "easy", comment := some "x", radar_key := "a", features := [] }

/-- A persisted feature with a non-line geometry. -/
def exFeatureWrongType : PersistedFeature :=
  { kind := some "water_table", name := some "Water table",
    color := some "#CE00FF", issues := [], geometry := Geometry.other }

/-- A loadable persisted line feature. -/
def exFeatureLine : PersistedFeature :=
  { kind := some "water_table", name := some "Water table",
    color := some "#CE00FF", issues := [],
    geometry := Geometry.lineString [(0, 0), (5, 0)] }

/-- A document matching `exMeta` whose first feature has the wrong
geometry type and whose second is a loadable line. -/
def exDocWrongType : PersistedDocument :=
  { date_modified := "2025-01-01T00:00:00Z", height := 50, width := 100,
    difficulty := some "easy", comment := some "x", radar_key := "b",
    features := [exFeatureWrongType, exFeatureLine] }

/-- A document matching `exMeta` whose first feature is a loadable line
and whose second has the wrong geometry type. -/
def exDocWrongTypeLate : PersistedDocument :=
  { date_modified := "2025-01-01T00:00:00Z", height := 50, width := 100,
    difficulty := some "easy", comment := some "x", radar_key := "b",
    features := [exFeatureLine, exFeatureWrongType] }

/-- The feature a save/load round trip rebuilds from `f`: same kind and
vertices, color and name re-derived from the registry, issues
recomputed by the creation path (identity fallback for a kind outside
the registry, where the loader would throw instead). -/
def reloaded_feature (f : Feature) : Feature :=
  match (get_layer_classes).lookup f.kind with
  | some props =>
      { kind := f.kind, color := props.color, name := props.name,
        issues := validate_polyline f.vertices, vertices := f.vertices }
  | none => f

theorem vtx_cons_succ (a : Vertex) (l : List Vertex) (j : ℕ) :
    vtx (a :: l) (j + 1) = vtx l j := rfl

theorem vtx_cons_zero (a : Vertex) (l : List Vertex) :
    vtx (a :: l) 0 = a := rfl

theorem overhang_scan_eq_nil_iff (inc : Bool) :
    ∀ (l : List Vertex) (k : ℕ),
      overhang_scan inc l k = [] ↔
        ∀ j, j + 1 < l.length → overhang_flag inc (vtx l j).x (vtx l (j + 1)).x = false
  | [], _ => by simp [overhang_scan]
  | [_], _ => by simp [overhang_scan]
  | v :: w :: rest, k => by
    have IH := overhang_scan_eq_nil_iff inc (w :: rest) (k + 1)
    rw [overhang_scan]
    cases hf : overhang_flag inc v.x w.x with
    | false =>
      simp only [Bool.false_eq_true, if_false, List.nil_append]
      rw [IH]
      constructor
      · intro h j hj
        cases j with
        | zero => simpa [vtx_cons_zero, vtx_cons_succ] using hf
        | succ j1 =>
            have := h j1 (by simp at hj ⊢; omega)
            simpa [vtx_cons_succ] using this
      · intro h j hj
        have := h (j + 1) (by simp at hj ⊢; omega)
        simpa [vtx_cons_succ] using this
    | true =>
      simp only [if_true, List.cons_append]
      constructor
      · intro h; exact absurd h (by simp)
      · intro h
        have h0 := h 0 (by simp)
        rw [vtx_cons_zero, vtx_cons_succ, vtx_cons_zero] at h0
        rw [hf] at h0
        exact absurd h0 (by simp)

theorem mem_overhang_scan (inc : Bool) :
    ∀ (l : List Vertex) (k : ℕ) (s : String), s ∈ overhang_scan inc l k →
      ∃ j, j + 1 < l.length ∧ overhang_flag inc (vtx l j).x (vtx l (j + 1)).x = true
        ∧ s = issue_text (k + j)
  | [], _, _ => by simp [overhang_scan]
  | [_], _, _ => by simp [overhang_scan]
  | v :: w :: rest, k, s => by
    rw [overhang_scan]
    intro hs
    rcases List.mem_append.mp hs with hleft | hright
    · rcases Decidable.em (overhang_flag inc v.x w.x = true) with hf | hf
      · rw [if_pos hf] at hleft
        refine ⟨0, by simp, ?_, ?_⟩
        · rw [vtx_cons_zero, vtx_cons_succ, vtx_cons_zero]
          exact hf
        · simpa using hleft
      · rw [if_neg hf] at hleft
        simp at hleft
    · rcases mem_overhang_scan inc (w :: rest) (k + 1) s hright with ⟨j1, hj1, hflag, hsval⟩
      refine ⟨j1 + 1, by simp at hj1 ⊢; omega, ?_, ?_⟩
      · simpa [vtx_cons_succ] using hflag
      · rw [hsval]; congr 1; omega

theorem overhang_scan_mem (inc : Bool) :
    ∀ (l : List Vertex) (k j : ℕ), j + 1 < l.length →
      overhang_flag inc (vtx l j).x (vtx l (j + 1)).x = true →
      issue_text (k + j) ∈ overhang_scan inc l k
  | [], _, _ => by simp
  | [_], _, _ => by simp
  | v :: w :: rest, k, j => by
    intro hj hflag
    rw [overhang_scan]
    cases j with
    | zero =>
        rw [vtx_cons_zero, vtx_cons_succ, vtx_cons_zero] at hflag
        rw [if_pos hflag]
        simp
    | succ j1 =>
        have hj1 : j1 + 1 < (w :: rest).length := by simp at hj ⊢; omega
        have hflag1 : overhang_flag inc (vtx (w :: rest) j1).x (vtx (w :: rest) (j1 + 1)).x
            = true := by simpa [vtx_cons_succ] using hflag
        have := overhang_scan_mem inc (w :: rest) (k + 1) j1 hj1 hflag1
        have heq : k + 1 + j1 = k + (j1 + 1) := by omega
        rw [heq] at this
        exact List.mem_append_right _ this

theorem desc_chain (l : List Vertex)
    (h : ∀ j, j + 1 < l.length → (vtx l (j + 1)).x < (vtx l j).x) :
    ∀ i, i < l.length → 1 ≤ i → (vtx l i).x < (vtx l 0).x := by
  intro i
  induction i with
  | zero => intro _ h1; omega
  | succ n ih =>
    intro hlt _
    rcases Nat.eq_zero_or_pos n with hn | hn
    · subst hn
      exact h 0 hlt
    · exact lt_trans (h n hlt) (ih (by omega) hn)

/-- **C3.**  For every feature vertex sequence, `validate_polyline`
returns an empty issue list iff every consecutive vertex pair moves in
the same horizontal direction as the displacement from the first vertex
to the last; sequences with fewer than 2 vertices are trivially valid;
and each issue flagged for a violating pair `(i-1, i)` references
vertex index `i`. -/
theorem validate_polyline_spec (vs : List Vertex) :
    (validate_polyline vs = [] ↔
      ∀ i, 1 ≤ i → i < vs.length →
        same_direction ((vtx vs (vs.length - 1)).x - (vtx vs 0).x)
          (vtx vs (i - 1)).x (vtx vs i).x)
    ∧ (vs.length < 2 → validate_polyline vs = [])
    ∧ (∀ s, s ∈ validate_polyline vs →
        ∃ i, 1 ≤ i ∧ i < vs.length
          ∧ overhang_flag (line_increasing vs) (vtx vs (i - 1)).x (vtx vs i).x = true
          ∧ s = issue_text i)
    ∧ (∀ i, 1 ≤ i → i < vs.length →
        overhang_flag (line_increasing vs) (vtx vs (i - 1)).x (vtx vs i).x = true →
        issue_text i ∈ validate_polyline vs) := by
  refine ⟨?_, ?_, ?_, ?_⟩
  · by_cases hlen : vs.length < 2
    · rw [validate_polyline, if_pos hlen]
      constructor
      · intro _ i h1 h2; omega
      · intro _; rfl
    · push_neg at hlen
      rw [validate_polyline, if_neg (by omega), overhang_scan_eq_nil_iff]
      by_cases hinc : (vtx vs 0).x < (vtx vs (vs.length - 1)).x
      · have hincb : line_increasing vs = true := decide_eq_true hinc
        rw [hincb]
        constructor
        · intro h i h1 h2
          left
          refine ⟨by linarith [sub_pos.mpr hinc], ?_⟩
          have hj := h (i - 1) (by omega)
          have hle : ¬ ((vtx vs (i - 1 + 1)).x ≤ (vtx vs (i - 1)).x) := by
            simpa [overhang_flag] using hj
          have heq : i - 1 + 1 = i := by omega
          rw [heq] at hle
          exact lt_of_not_le hle
        · intro h j hj
          have hi := h (j + 1) (by omega) (by omega)
          rcases hi with ⟨_, hlt⟩ | ⟨hd, _⟩
          · have heq : j + 1 - 1 = j := by omega
            rw [heq] at hlt
            simp [overhang_flag, not_le.mpr hlt]
          · exfalso; have := sub_pos.mpr hinc; linarith
      · have hincb : line_increasing vs = false := by
          rw [line_increasing, decide_eq_false_iff_not]
          exact hinc
        rw [hincb]
        constructor
        · intro h i h1 h2
          have hdec : ∀ j, j + 1 < vs.length → (vtx vs (j + 1)).x < (vtx vs j).x := by
            intro j hj
            have hjf := h j hj
            have hle : ¬ ((vtx vs j).x ≤ (vtx vs (j + 1)).x) := by
              simpa [overhang_flag] using hjf
            exact lt_of_not_le hle
          have hchain := desc_chain vs hdec (vs.length - 1) (by omega) (by omega)
          right
          refine ⟨by linarith, ?_⟩
          have hpair := hdec (i - 1) (by omega)
          have heq : i - 1 + 1 = i := by omega
          rw [heq] at hpair
          exact hpair
        · intro h j hj
          have h1 := h 1 (le_refl 1) (by omega)
          have hd : (vtx vs (vs.length - 1)).x - (vtx vs 0).x < 0 := by
            rcases h1 with ⟨hd0, _⟩ | ⟨hd0, _⟩
            · exact absurd (by linarith : (vtx vs 0).x < (vtx vs (vs.length - 1)).x) hinc
            · exact hd0
          have hij := h (j + 1) (by omega) (by omega)
          rcases hij with ⟨hd2, _⟩ | ⟨_, hgt⟩
          · exfalso; linarith
          · have heq : j + 1 - 1 = j := by omega
            rw [heq] at hgt
            simp [overhang_flag, not_le.mpr hgt]
  · intro h
    rw [validate_polyline, if_pos h]
  · intro s hs
    by_cases hlen : vs.length < 2
    · rw [validate_polyline, if_pos hlen] at hs
      simp at hs
    · rw [validate_polyline, if_neg hlen] at hs
      rcases mem_overhang_scan (line_increasing vs) vs 1 s hs with ⟨j, hj, hflag, hsv⟩
      refine ⟨j + 1, by omega, by omega, ?_, ?_⟩
      · have heq : j + 1 - 1 = j := by omega
        rw [heq]
        exact hflag
      · rw [hsv]; congr 1; omega
  · intro i h1 h2 hflag
    have hlen : ¬ (vs.length < 2) := by omega
    rw [validate_polyline, if_neg hlen]
    have heq : i - 1 + 1 = i := by omega
    have hflag1 : overhang_flag (line_increasing vs) (vtx vs (i - 1)).x
        (vtx vs (i - 1 + 1)).x = true := by rw [heq]; exact hflag
    have hmem := overhang_scan_mem (line_increasing vs) vs 1 (i - 1) (by omega) hflag1
    have heq2 : 1 + (i - 1) = i := by omega
    rw [heq2] at hmem
    exact hmem

/-- Witness for `validate_polyline_spec` at the Scenario B vertices:
the hypotheses of its last conjunct hold at `i = 2`, and the theorem
places the overhang issue for vertex 2 in the validator's output. -/
theorem validate_polyline_spec_witness :
    (1 ≤ 2 ∧ 2 < exSeqB.length
      ∧ overhang_flag (line_increasing exSeqB) (vtx exSeqB 1).x (vtx exSeqB 2).x = true)
    ∧ issue_text 2 ∈ validate_polyline exSeqB :=
  ⟨by decide, (validate_polyline_spec exSeqB).2.2.2 2 (by decide) (by decide) (by decide)⟩

theorem mem_split_coords_zero (x y : ℚ) :
    ∀ (l : List Vertex) (done : Bool) (v : Vertex), v ∈ l → v.x ≤ x →
      v ∈ split_polyline_coords x y 0 l done
  | [], _, v => by intro hv _; simp at hv
  | u :: rest, done, v => by
    intro hv hvx
    rw [split_polyline_coords]
    by_cases hskip : (0 = 0 ∧ x < u.x) ∨ (0 = 1 ∧ u.x < x)
    · rw [if_pos hskip]
      rcases List.mem_cons.mp hv with hvu | hvr
      · rcases hskip with ⟨_, hgt⟩ | ⟨h01, _⟩
        · subst hvu; exact absurd hgt (not_lt.mpr hvx)
        · exact absurd h01 (by omega)
      · exact List.mem_append_right _ (mem_split_coords_zero x y rest true v hvr hvx)
    · rw [if_neg hskip]
      rcases List.mem_cons.mp hv with hvu | hvr
      · subst hvu; exact List.mem_cons_self _ _
      · exact List.mem_cons_of_mem _ (mem_split_coords_zero x y rest done v hvr hvx)

theorem mem_split_coords_one (x y : ℚ) :
    ∀ (l : List Vertex) (done : Bool) (v : Vertex), v ∈ l → x ≤ v.x →
      v ∈ split_polyline_coords x y 1 l done
  | [], _, v => by intro hv _; simp at hv
  | u :: rest, done, v => by
    intro hv hvx
    rw [split_polyline_coords]
    by_cases hskip : (1 = 0 ∧ x < u.x) ∨ (1 = 1 ∧ u.x < x)
    · rw [if_pos hskip]
      rcases List.mem_cons.mp hv with hvu | hvr
      · rcases hskip with ⟨h10, _⟩ | ⟨_, hlt⟩
        · exact absurd h10 (by omega)
        · subst hvu; exact absurd hlt (not_lt.mpr hvx)
      · exact List.mem_append_right _ (mem_split_coords_one x y rest true v hvr hvx)
    · rw [if_neg hskip]
      rcases List.mem_cons.mp hv with hvu | hvr
      · subst hvu; exact List.mem_cons_self _ _
      · exact List.mem_cons_of_mem _ (mem_split_coords_one x y rest done v hvr hvx)

theorem split_coords_zero_subset (x y : ℚ) :
    ∀ (l : List Vertex) (done : Bool) (u : Vertex),
      u ∈ split_polyline_coords x y 0 l done → (u ∈ l ∧ u.x ≤ x) ∨ u = ⟨x, y⟩
  | [], _, u => by intro h; rw [split_polyline_coords] at h; simp at h
  | v :: rest, done, u => by
    intro hu
    rw [split_polyline_coords] at hu
    by_cases hskip : (0 = 0 ∧ x < v.x) ∨ (0 = 1 ∧ v.x < x)
    · rw [if_pos hskip] at hu
      rcases List.mem_append.mp hu with hcut | hrec
      · right
        cases done with
        | true => simp at hcut
        | false => simpa using hcut
      · rcases split_coords_zero_subset x y rest true u hrec with ⟨hm, hle⟩ | heq
        · exact Or.inl ⟨List.mem_cons_of_mem _ hm, hle⟩
        · exact Or.inr heq
    · rw [if_neg hskip] at hu
      rcases List.mem_cons.mp hu with huv | hrec
      · refine Or.inl ⟨?_, ?_⟩
        · rw [huv]; exact List.mem_cons_self _ _
        · rw [huv]
          rcases not_or.mp hskip with ⟨h0, _⟩
          have : ¬ (x < v.x) := fun hc => h0 ⟨rfl, hc⟩
          exact not_lt.mp this
      · rcases split_coords_zero_subset x y rest done u hrec with ⟨hm, hle⟩ | heq
        · exact Or.inl ⟨List.mem_cons_of_mem _ hm, hle⟩
        · exact Or.inr heq

theorem split_coords_one_subset (x y : ℚ) :
    ∀ (l : List Vertex) (done : Bool) (u : Vertex),
      u ∈ split_polyline_coords x y 1 l done → (u ∈ l ∧ x ≤ u.x) ∨ u = ⟨x, y⟩
  | [], _, u => by intro h; rw [split_polyline_coords] at h; simp at h
  | v :: rest, done, u => by
    intro hu
    rw [split_polyline_coords] at hu
    by_cases hskip : (1 = 0 ∧ x < v.x) ∨ (1 = 1 ∧ v.x < x)
    · rw [if_pos hskip] at hu
      rcases List.mem_append.mp hu with hcut | hrec
      · right
        cases done with
        | true => simp at hcut
        | false => simpa using hcut
      · rcases split_coords_one_subset x y rest true u hrec with ⟨hm, hle⟩ | heq
        · exact Or.inl ⟨List.mem_cons_of_mem _ hm, hle⟩
        · exact Or.inr heq
    · rw [if_neg hskip] at hu
      rcases List.mem_cons.mp hu with huv | hrec
      · refine Or.inl ⟨?_, ?_⟩
        · rw [huv]; exact List.mem_cons_self _ _
        · rw [huv]
          rcases not_or.mp hskip with ⟨_, h1⟩
          have : ¬ (v.x < x) := fun hc => h1 ⟨rfl, hc⟩
          exact not_lt.mp this
      · rcases split_coords_one_subset x y rest done u hrec with ⟨hm, hle⟩ | heq
        · exact Or.inl ⟨List.mem_cons_of_mem _ hm, hle⟩
        · exact Or.inr heq

/-- **C5.**  `split_polyline` yields exactly two children appended in
place of the removed parent; both inherit the parent's kind; their
vertex lists are the two partition passes; every original vertex lands
in at least one child and the children contain nothing beyond original
vertices and the inserted cut point `(x, y)`; and on the Scenario D
vertices the cut at `x = 3` yields exactly the two specified children. -/
theorem split_polyline_spec :
    (∀ (f : Feature) (x y : ℚ) (items : List Feature) (props : ClassProps),
      (get_layer_classes).lookup f.kind = some props → f ∈ items →
      ∃ a b, split_polyline f x y items = items.erase f ++ [a, b]
        ∧ a.kind = f.kind ∧ b.kind = f.kind
        ∧ a.vertices = split_polyline_coords x y 0 f.vertices false
        ∧ b.vertices = split_polyline_coords x y 1 f.vertices false
        ∧ (∀ v ∈ f.vertices, v ∈ a.vertices ∨ v ∈ b.vertices)
        ∧ (∀ v, v ∈ a.vertices ∨ v ∈ b.vertices → v ∈ f.vertices ∨ v = ⟨x, y⟩))
    ∧ split_polyline_coords 3 0 0 exSeqD false = [⟨0, 0⟩, ⟨2, 0⟩, ⟨3, 0⟩]
    ∧ split_polyline_coords 3 0 1 exSeqD false = [⟨3, 0⟩, ⟨4, 0⟩, ⟨6, 0⟩] := by
  refine ⟨?_, by decide, by decide⟩
  intro f x y items props hreg hmem
  have hc0 : create_polyline (split_polyline_coords x y 0 f.vertices false) (some f.kind)
      = some { kind := f.kind, color := props.color, name := props.name,
               issues := validate_polyline (split_polyline_coords x y 0 f.vertices false),
               vertices := split_polyline_coords x y 0 f.vertices false } := by
    rw [create_polyline, hreg]
  have hc1 : create_polyline (split_polyline_coords x y 1 f.vertices false) (some f.kind)
      = some { kind := f.kind, color := props.color, name := props.name,
               issues := validate_polyline (split_polyline_coords x y 1 f.vertices false),
               vertices := split_polyline_coords x y 1 f.vertices false } := by
    rw [create_polyline, hreg]
  refine ⟨{ kind := f.kind, color := props.color, name := props.name,
            issues := validate_polyline (split_polyline_coords x y 0 f.vertices false),
            vertices := split_polyline_coords x y 0 f.vertices false },
          { kind := f.kind, color := props.color, name := props.name,
            issues := validate_polyline (split_polyline_coords x y 1 f.vertices false),
            vertices := split_polyline_coords x y 1 f.vertices false },
          ?_, rfl, rfl, rfl, rfl, ?_, ?_⟩
  · rw [split_polyline, hc0, hc1]
    exact List.erase_append_left _ hmem
  · intro v hv
    rcases le_or_lt v.x x with hle | hgt
    · exact Or.inl (mem_split_coords_zero x y f.vertices false v hv hle)
    · exact Or.inr (mem_split_coords_one x y f.vertices false v hv (le_of_lt hgt))
  · intro v hv
    rcases hv with h0 | h1
    · rcases split_coords_zero_subset x y f.vertices false v h0 with ⟨hm, _⟩ | heq
      · exact Or.inl hm
      · exact Or.inr heq
    · rcases split_coords_one_subset x y f.vertices false v h1 with ⟨hm, _⟩ | heq
      · exact Or.inl hm
      · exact Or.inr heq

/-- Witness for `split_polyline_spec`: splitting the Scenario D feature
at `x = 3` inside a one-element set satisfies every hypothesis. -/
theorem split_polyline_spec_witness :
    ∃ a b, split_polyline exFeatureD 3 0 [exFeatureD]
        = [exFeatureD].erase exFeatureD ++ [a, b]
      ∧ a.kind = exFeatureD.kind ∧ b.kind = exFeatureD.kind
      ∧ a.vertices = split_polyline_coords 3 0 0 exFeatureD.vertices false
      ∧ b.vertices = split_polyline_coords 3 0 1 exFeatureD.vertices false
      ∧ (∀ v ∈ exFeatureD.vertices, v ∈ a.vertices ∨ v ∈ b.vertices)
      ∧ (∀ v, v ∈ a.vertices ∨ v ∈ b.vertices →
            v ∈ exFeatureD.vertices ∨ v = ⟨3, 0⟩) :=
  split_polyline_spec.1 exFeatureD 3 0 [exFeatureD]
    ⟨"Crevasse", "#62F700", "crevasse"⟩ (by decide) (by decide)

/-- **C10.**  In `split_polyline`'s partition, an original vertex
exactly on the cut abscissa is kept by both passes, a vertex strictly
left of it only by pass 0, and a vertex strictly right of it only by
pass 1. -/
theorem split_boundary (vs : List Vertex) (x y : ℚ) (v : Vertex) (hv : v ∈ vs) :
    (v.x = x → v ∈ split_polyline_coords x y 0 vs false
        ∧ v ∈ split_polyline_coords x y 1 vs false)
    ∧ (v.x < x → v ∈ split_polyline_coords x y 0 vs false
        ∧ v ∉ split_polyline_coords x y 1 vs false)
    ∧ (x < v.x → v ∈ split_polyline_coords x y 1 vs false
        ∧ v ∉ split_polyline_coords x y 0 vs false) := by
  refine ⟨?_, ?_, ?_⟩
  · intro he
    exact ⟨mem_split_coords_zero x y vs false v hv (le_of_eq he),
           mem_split_coords_one x y vs false v hv (le_of_eq he.symm)⟩
  · intro hlt
    refine ⟨mem_split_coords_zero x y vs false v hv (le_of_lt hlt), ?_⟩
    intro hmem
    rcases split_coords_one_subset x y vs false v hmem with ⟨_, hge⟩ | heq
    · exact absurd hge (not_le.mpr hlt)
    · have hvx : v.x = x := by rw [heq]
      rw [hvx] at hlt
      exact lt_irrefl x hlt
  · intro hgt
    refine ⟨mem_split_coords_one x y vs false v hv (le_of_lt hgt), ?_⟩
    intro hmem
    rcases split_coords_zero_subset x y vs false v hmem with ⟨_, hle⟩ | heq
    · exact absurd hle (not_le.mpr hgt)
    · have hvx : v.x = x := by rw [heq]
      rw [hvx] at hgt
      exact lt_irrefl x hgt

/-- Witness for `split_boundary`: the vertex `(3, 5)` sits exactly on
the cut `x = 3` of its polyline and is kept by both passes. -/
theorem split_boundary_witness :
    (⟨3, 5⟩ : Vertex) ∈ split_polyline_coords 3 7 0 [⟨1, 0⟩, ⟨3, 5⟩, ⟨6, 0⟩] false
    ∧ (⟨3, 5⟩ : Vertex) ∈ split_polyline_coords 3 7 1 [⟨1, 0⟩, ⟨3, 5⟩, ⟨6, 0⟩] false :=
  (split_boundary [⟨1, 0⟩, ⟨3, 5⟩, ⟨6, 0⟩] 3 7 ⟨3, 5⟩ (by decide)).1 rfl

/-- **C2.**  A document whose `radar_key`, `width` or `height` differs
from the session meta is rejected atomically: the session (feature set,
comment, difficulty) is returned unchanged and exactly one mismatch
error message is reported. -/
theorem load_digitized_mismatch (data : PersistedDocument) (meta : RadargramMeta)
    (s : Session)
    (h : data.radar_key ≠ meta.radar_key ∨ data.width ≠ meta.width
        ∨ data.height ≠ meta.height) :
    (load_digitized_inner data meta s).1 = s
    ∧ ∃ key got expected,
        (load_digitized_inner data meta s).2 = [mismatch_message key got expected] := by
  rw [load_digitized_inner]
  by_cases h1 : data.radar_key ≠ meta.radar_key
  · rw [if_pos h1]
    exact ⟨rfl, "radar_key", _, _, rfl⟩
  · rw [if_neg h1]
    by_cases h2 : data.width ≠ meta.width
    · rw [if_pos h2]
      exact ⟨rfl, "width", _, _, rfl⟩
    · rw [if_neg h2]
      have h3 : data.height ≠ meta.height := by tauto
      rw [if_pos h3]
      exact ⟨rfl, "height", _, _, rfl⟩

/-- Witness for `load_digitized_mismatch`: the Scenario C document
(`radar_key = "a"`) against the `"b"` session is rejected unchanged. -/
theorem load_digitized_mismatch_witness :
    exDocMismatch.radar_key ≠ exMeta.radar_key
    ∧ (load_digitized_inner exDocMismatch exMeta exSession).1 = exSession :=
  ⟨by decide,
   (load_digitized_mismatch exDocMismatch exMeta exSession (Or.inl (by decide))).1⟩

theorem filterMap_eq_map_of_forall {α β : Type} (l : List α) (g : α → Option β)
    (r : α → β) (h : ∀ a ∈ l, g a = some (r a)) : l.filterMap g = l.map r := by
  induction l with
  | nil => rfl
  | cons a t ih =>
      rw [List.filterMap_cons, h a (List.mem_cons_self a t), List.map_cons,
          ih fun b hb => h b (List.mem_cons_of_mem a hb)]

theorem load_features_all_ok (xscale : ℚ) :
    ∀ (pfs : List PersistedFeature) (acc : List Feature),
      (∀ pf ∈ pfs, (∃ coords, pf.geometry = Geometry.lineString coords)
          ∧ (load_one_feature xscale pf).isSome) →
      load_features xscale pfs acc
        = (acc ++ pfs.filterMap (load_one_feature xscale),
           ["Loaded "
              ++ toString (acc ++ pfs.filterMap (load_one_feature xscale)).length
              ++ " line(s)"])
  | [], acc => by intro _; simp [load_features]
  | pf :: rest, acc => by
    intro h
    rcases h pf (List.mem_cons_self _ _) with ⟨⟨coords, hgeom⟩, hsome⟩
    rcases Option.isSome_iff_exists.mp hsome with ⟨feat, hfeat⟩
    have hcreate : create_polyline
        (coords.map fun pair => (⟨pair.1 * xscale, pair.2⟩ : Vertex))
        (resolve_kind pf) = some feat := by
      rw [load_one_feature, hgeom] at hfeat
      exact hfeat
    simp only [load_features, hgeom, hcreate]
    rw [load_features_all_ok xscale rest (acc ++ [feat])
          fun b hb => h b (List.mem_cons_of_mem pf hb),
        List.filterMap_cons_some hfeat, List.append_assoc]
    rfl

theorem load_features_stops (xscale : ℚ) :
    ∀ (pre : List PersistedFeature) (bad : PersistedFeature)
      (post : List PersistedFeature) (acc : List Feature),
      (∀ pf ∈ pre, (∃ coords, pf.geometry = Geometry.lineString coords)
          ∧ (load_one_feature xscale pf).isSome) →
      bad.geometry = Geometry.other →
      load_features xscale (pre ++ bad :: post) acc
        = (acc ++ pre.filterMap (load_one_feature xscale),
           ["Skipped loading of one feature as it was the wrong type"])
  | [], bad, post, acc => by
    intro _ hbad
    rw [List.nil_append, load_features, hbad, List.filterMap_nil, List.append_nil]
  | pf :: pre1, bad, post, acc => by
    intro h hbad
    rcases h pf (List.mem_cons_self _ _) with ⟨⟨coords, hgeom⟩, hsome⟩
    rcases Option.isSome_iff_exists.mp hsome with ⟨feat, hfeat⟩
    have hcreate : create_polyline
        (coords.map fun pair => (⟨pair.1 * xscale, pair.2⟩ : Vertex))
        (resolve_kind pf) = some feat := by
      rw [load_one_feature, hgeom] at hfeat
      exact hfeat
    rw [List.cons_append]
    simp only [load_features, hgeom, hcreate]
    rw [load_features_stops xscale pre1 bad post (acc ++ [feat])
          (fun b hb => h b (List.mem_cons_of_mem pf hb)) hbad,
        List.filterMap_cons_some hfeat, List.append_assoc]
    rfl

theorem reloaded_feature_kind (f : Feature) : (reloaded_feature f).kind = f.kind := by
  rw [reloaded_feature]
  cases (get_layer_classes).lookup f.kind <;> rfl

theorem reloaded_feature_vertices (f : Feature) :
    (reloaded_feature f).vertices = f.vertices := by
  rw [reloaded_feature]
  cases (get_layer_classes).lookup f.kind <;> rfl

theorem vertices_map_rescale (xscale : ℚ) (hx : xscale ≠ 0) (vs : List Vertex) :
    ((vs.map fun v => (v.x, v.y)).map fun c => ((c.1 / xscale, c.2) : ℚ × ℚ)).map
        (fun pair => (⟨pair.1 * xscale, pair.2⟩ : Vertex)) = vs := by
  rw [List.map_map, List.map_map]
  conv_rhs => rw [← List.map_id vs]
  apply List.map_congr_left
  intro v _
  show (⟨v.x / xscale * xscale, v.y⟩ : Vertex) = v
  rw [div_mul_cancel₀ _ hx]

theorem vertices_map_unit (vs : List Vertex) :
    (vs.map fun v => (v.x, v.y)).map
        (fun pair => (⟨pair.1 * 1, pair.2⟩ : Vertex)) = vs := by
  rw [List.map_map]
  conv_rhs => rw [← List.map_id vs]
  apply List.map_congr_left
  intro v _
  show (⟨v.x * 1, v.y⟩ : Vertex) = v
  rw [mul_one]

theorem load_one_scaled (xscale : ℚ) (hx : xscale ≠ 0) (f : Feature) :
    ((get_layer_classes).lookup f.kind).isSome →
    load_one_feature xscale (scale_feature xscale (feature_to_geojson f))
      = some (reloaded_feature f) := by
  intro hreg
  rcases Option.isSome_iff_exists.mp hreg with ⟨props, hprops⟩
  simp only [load_one_feature, scale_feature, feature_to_geojson, resolve_kind,
    create_polyline, hprops, reloaded_feature]
  rw [vertices_map_rescale xscale hx f.vertices]

theorem load_one_unit (f : Feature) :
    ((get_layer_classes).lookup f.kind).isSome →
    load_one_feature 1 (feature_to_geojson f) = some (reloaded_feature f) := by
  intro hreg
  rcases Option.isSome_iff_exists.mp hreg with ⟨props, hprops⟩
  simp only [load_one_feature, feature_to_geojson, resolve_kind,
    create_polyline, hprops, reloaded_feature]
  rw [vertices_map_unit f.vertices]

/-- **C4.**  Saving the session with any nonzero `xscale` and loading
the resulting document back (against the same meta) rebuilds a feature
set with the same kinds and the same vertex coordinates, feature by
feature. -/
theorem save_load_roundtrip (s : Session) (meta : RadargramMeta) (date : String)
    (s0 : Session) (hx : meta.xscale ≠ 0)
    (hk : ∀ f ∈ s.drawn_items, ((get_layer_classes).lookup f.kind).isSome) :
    ((load_digitized_inner (make_feature_save_json s meta date) meta s0).1.drawn_items.map
        Feature.kind = s.drawn_items.map Feature.kind)
    ∧ ((load_digitized_inner (make_feature_save_json s meta date) meta s0).1.drawn_items.map
        Feature.vertices = s.drawn_items.map Feature.vertices) := by
  have hitems : (load_digitized_inner (make_feature_save_json s meta date) meta s0).1.drawn_items
      = s.drawn_items.map reloaded_feature := by
    rw [load_digitized_inner, if_neg (fun hc => hc rfl), if_neg (fun hc => hc rfl),
        if_neg (fun hc => hc rfl)]
    show (load_features meta.xscale (make_feature_save_json s meta date).features []).1
        = s.drawn_items.map reloaded_feature
    by_cases h1 : meta.xscale ≠ 1
    · have hfeats : (make_feature_save_json s meta date).features
          = s.drawn_items.map fun f => scale_feature meta.xscale (feature_to_geojson f) := by
        simp only [make_feature_save_json, if_pos h1, List.map_map]
        rfl
      rw [hfeats, load_features_all_ok]
      · rw [List.nil_append, List.filterMap_map]
        simp only [Function.comp_def]
        rw [filterMap_eq_map_of_forall s.drawn_items _ reloaded_feature
              fun f hf => load_one_scaled meta.xscale hx f (hk f hf)]
      · intro pf hpf
        rcases List.mem_map.mp hpf with ⟨f, hf, hpfeq⟩
        constructor
        · exact ⟨_, by rw [← hpfeq]; rfl⟩
        · rw [← hpfeq, load_one_scaled meta.xscale hx f (hk f hf)]
          rfl
    · push_neg at h1
      have hfeats : (make_feature_save_json s meta date).features
          = s.drawn_items.map feature_to_geojson := by
        simp only [make_feature_save_json, h1]
        rfl
      rw [hfeats, h1, load_features_all_ok]
      · rw [List.nil_append, List.filterMap_map]
        simp only [Function.comp_def]
        rw [filterMap_eq_map_of_forall s.drawn_items _ reloaded_feature
              fun f hf => load_one_unit f (hk f hf)]
      · intro pf hpf
        rcases List.mem_map.mp hpf with ⟨f, hf, hpfeq⟩
        constructor
        · exact ⟨_, by rw [← hpfeq]; rfl⟩
        · rw [← hpfeq, load_one_unit f (hk f hf)]
          rfl
  rw [hitems, List.map_map, List.map_map]
  constructor
  · apply List.map_congr_left
    intro f _
    exact reloaded_feature_kind f
  · apply List.map_congr_left
    intro f _
    exact reloaded_feature_vertices f

/-- Witness for `save_load_roundtrip`: the one-feature session exported
with `xscale = 2` and loaded back keeps its kind and vertices. -/
theorem save_load_roundtrip_witness :
    ((2 : ℚ) ≠ 0)
    ∧ ((load_digitized_inner (make_feature_save_json exSession exMeta2 "d") exMeta2
          exSessionEmpty).1.drawn_items.map Feature.kind
        = exSession.drawn_items.map Feature.kind)
    ∧ ((load_digitized_inner (make_feature_save_json exSession exMeta2 "d") exMeta2
          exSessionEmpty).1.drawn_items.map Feature.vertices
        = exSession.drawn_items.map Feature.vertices) :=
  ⟨by norm_num,
   save_load_roundtrip exSession exMeta2 "d" exSessionEmpty (by norm_num [exMeta2])
     (by decide)⟩

/-- **C6 counterexample.**  `exDocWrongType` carries a wrong-type
feature followed by a loadable line matching the meta; loading it
imports nothing at all (the loader returns right after the skip
message), even though the remaining line feature on its own is
perfectly loadable — so the import does not continue with the
remaining features. -/
theorem load_wrong_type_counterexample :
    (load_digitized_inner exDocWrongType exMeta exSession).1.drawn_items = []
    ∧ (load_digitized_inner exDocWrongType exMeta exSession).2
        = ["Skipped loading of one feature as it was the wrong type"]
    ∧ (load_one_feature exMeta.xscale exFeatureLine).isSome = true :=
  ⟨by decide, by decide, by decide⟩

/-- **C6 (amended).**  A non-LineString feature makes the loader report
the skip message once and return at that point: the features already
imported before it are kept, and it and every remaining feature are
skipped. -/
theorem load_stops_at_wrong_type (data : PersistedDocument) (meta : RadargramMeta)
    (s : Session) (pre : List PersistedFeature) (bad : PersistedFeature)
    (post : List PersistedFeature)
    (hrk : data.radar_key = meta.radar_key) (hw : data.width = meta.width)
    (hh : data.height = meta.height)
    (hfeat : data.features = pre ++ bad :: post)
    (hpre : ∀ pf ∈ pre, (∃ coords, pf.geometry = Geometry.lineString coords)
        ∧ (load_one_feature meta.xscale pf).isSome)
    (hbad : bad.geometry = Geometry.other) :
    (load_digitized_inner data meta s).1
      = { drawn_items := pre.filterMap (load_one_feature meta.xscale),
          comment := data.comment, difficulty := data.difficulty }
    ∧ (load_digitized_inner data meta s).2
      = ["Skipped loading of one feature as it was the wrong type"] := by
  rw [load_digitized_inner, if_neg (fun hc => hc hrk), if_neg (fun hc => hc hw),
      if_neg (fun hc => hc hh), hfeat,
      load_features_stops meta.xscale pre bad post [] hpre hbad]
  exact ⟨rfl, rfl⟩

/-- Witness for `load_stops_at_wrong_type`: a document with one good
line before the wrong-type feature keeps the good line and reports the
skip once. -/
theorem load_stops_at_wrong_type_witness :
    (load_digitized_inner exDocWrongTypeLate exMeta exSession).1
      = { drawn_items := [exFeatureLine].filterMap (load_one_feature exMeta.xscale),
          comment := exDocWrongTypeLate.comment,
          difficulty := exDocWrongTypeLate.difficulty }
    ∧ (load_digitized_inner exDocWrongTypeLate exMeta exSession).2
      = ["Skipped loading of one feature as it was the wrong type"] :=
  load_stops_at_wrong_type exDocWrongTypeLate exMeta exSession
    [exFeatureLine] exFeatureWrongType [] rfl rfl rfl rfl
    (by
      intro pf hpf
      rw [List.mem_singleton] at hpf
      subst hpf
      exact ⟨⟨[(0, 0), (5, 0)], rfl⟩, by decide⟩)
    rfl

/-- **C1.**  The submit gate dispatches no network call when the
difficulty is unset, the feature set is empty, or any feature currently
validates with issues; and the gate's issue check is recomputed from
the features' vertices, ignoring whatever is cached in their `issues`
fields. -/
theorem submit_gate_safety :
    (∀ (d : Option String) (c : Bool) (st : ClickState),
      (d = none ∨ st.drawn_items = []
        ∨ ∃ f ∈ st.drawn_items, validate_polyline f.vertices ≠ []) →
      (submit_click d c st).2 ≠ GateOutcome.dispatched)
    ∧ (∀ (d : Option String) (c : Bool) (items : List Feature) (saved : Bool)
        (junk : Feature → List String),
      (submit_click d c { drawn_items := items.map fun f => { f with issues := junk f },
                          data_saved := saved }).2
        = (submit_click d c { drawn_items := items, data_saved := saved }).2) := by
  constructor
  · intro d c st h
    simp only [submit_click]
    by_cases hd : d = none
    · rw [if_pos hd]; simp
    · rw [if_neg hd]
      by_cases he : st.drawn_items.length = 0
      · rw [if_pos he]; simp
      · rw [if_neg he]
        rcases h with h | h | ⟨f, hf, hissues⟩
        · exact absurd h hd
        · exact absurd (by rw [h]; rfl) he
        · have hmem : f ∈ st.drawn_items.filter
              fun f => !(validate_polyline f.vertices).isEmpty :=
            List.mem_filter.mpr ⟨hf, by simpa using hissues⟩
          have hn : 0 < (st.drawn_items.filter
              fun f => !(validate_polyline f.vertices).isEmpty).length :=
            List.length_pos.mpr (List.ne_nil_of_mem hmem)
          rw [if_pos hn]
          simp
  · intro d c items saved junk
    have hfilter : ((items.map fun f => { f with issues := junk f }).filter
        fun f => !(validate_polyline f.vertices).isEmpty).length
        = (items.filter fun f => !(validate_polyline f.vertices).isEmpty).length := by
      rw [List.filter_map, List.length_map]
      congr 1
    simp only [submit_click, List.length_map, hfilter]
    by_cases hd : d = none
    · simp [hd]
    · by_cases he : items.length = 0
      · simp [hd, he]
      · by_cases hn : 0 < (items.filter
            fun f => !(validate_polyline f.vertices).isEmpty).length
        · simp [hd, he, hn]
        · cases c <;> simp [hd, he, hn]

/-- Witness for `submit_gate_safety`: with no difficulty chosen the
gate does not dispatch. -/
theorem submit_gate_safety_witness :
    (submit_click none true { drawn_items := [], data_saved := false }).2
      ≠ GateOutcome.dispatched :=
  submit_gate_safety.1 none true { drawn_items := [], data_saved := false }
    (Or.inl rfl)

/-- **C7 counterexample.**  Starting from an unsaved session with one
valid feature and a chosen difficulty, clicking submit dispatches and,
when the response is a 401, the re-login message is reported — but the
`data_saved` flag, `false` before the click, is `true` afterwards: the
failed submit did not leave the unsaved-changes flag unchanged. -/
theorem submit_401_counterexample :
    ({ drawn_items := [exFeatureOk], data_saved := false } : ClickState).data_saved = false
    ∧ (submit_click (some "normal") true
        { drawn_items := [exFeatureOk], data_saved := false }).2 = GateOutcome.dispatched
    ∧ (submit_respond (submit_click (some "normal") true
          { drawn_items := [exFeatureOk], data_saved := false }).1
        (FetchOutcome.json 401 none)).2 = SubmitReport.notLoggedIn
    ∧ (submit_respond (submit_click (some "normal") true
          { drawn_items := [exFeatureOk], data_saved := false }).1
        (FetchOutcome.json 401 none)).1.data_saved = true :=
  ⟨rfl, by decide, by decide, by decide⟩

/-- **C7 (amended).**  Handling a 401 response changes no session state
(feature set and `data_saved` flag alike) and reports the re-login
message, and nothing is resent; but the dispatching click itself had
already set `data_saved = true` (leaving the feature set unchanged), so
across a failed submit the unsaved-changes flag does not survive. -/
theorem submit_401_behavior :
    (∀ (st : ClickState) (m : Option String),
      submit_respond st (FetchOutcome.json 401 m) = (st, SubmitReport.notLoggedIn)
      ∧ submit_respond st (FetchOutcome.badJson 401) = (st, SubmitReport.notLoggedIn))
    ∧ (∀ (d : Option String) (c : Bool) (st : ClickState),
      (submit_click d c st).2 = GateOutcome.dispatched →
      (submit_click d c st).1 = { st with data_saved := true }) := by
  constructor
  · intro st m
    exact ⟨rfl, rfl⟩
  · intro d c st h
    simp only [submit_click] at h ⊢
    by_cases hd : d = none
    · rw [if_pos hd] at h; exact absurd h (by simp)
    · rw [if_neg hd] at h ⊢
      by_cases he : st.drawn_items.length = 0
      · rw [if_pos he] at h; exact absurd h (by simp)
      · rw [if_neg he] at h ⊢
        by_cases hn : 0 < (st.drawn_items.filter
            fun f => !(validate_polyline f.vertices).isEmpty).length
        · rw [if_pos hn] at h; exact absurd h (by simp)
        · rw [if_neg hn] at h ⊢
          cases c with
          | false => exact absurd h (by simp)
          | true => simp

/-- Witness for `submit_401_behavior`: a concrete 401 response leaves a
concrete state untouched, and a concrete dispatching click only flips
`data_saved`. -/
theorem submit_401_behavior_witness :
    submit_respond { drawn_items := [], data_saved := true } (FetchOutcome.json 401 none)
      = ({ drawn_items := [], data_saved := true }, SubmitReport.notLoggedIn)
    ∧ (submit_click (some "normal") true
        { drawn_items := [exFeatureOk], data_saved := false }).1
      = { drawn_items := [exFeatureOk], data_saved := true } :=
  ⟨(submit_401_behavior.1 { drawn_items := [], data_saved := true } none).1,
   submit_401_behavior.2 (some "normal") true
     { drawn_items := [exFeatureOk], data_saved := false } (by decide)⟩

/-- **C8 counterexample.**  An HTTP 500 response whose body parses to a
JSON message is reported as a success by `submit_digitized`: the
handler reports success for a non-success response. -/
theorem submit_non_success_counterexample :
    (500 ≠ 401)
    ∧ submit_digitized (FetchOutcome.json 500 (some "server error"))
        = SubmitReport.success (some "server error") :=
  ⟨by decide, by decide⟩

/-- **C8 (amended).**  `submit_digitized` inspects the status only for
401: any non-401 response with a parsable JSON body is reported as a
success carrying the body's message, regardless of HTTP status; a
non-401 response whose body fails to parse, or a network failure, is
reported with the generic submit-error message; 401 always yields the
re-login report. -/
theorem submit_digitized_spec :
    (∀ (status : ℕ) (m : Option String), status ≠ 401 →
        submit_digitized (FetchOutcome.json status m) = SubmitReport.success m)
    ∧ (∀ status : ℕ, status ≠ 401 →
        submit_digitized (FetchOutcome.badJson status) = SubmitReport.submitError)
    ∧ submit_digitized FetchOutcome.networkError = SubmitReport.submitError
    ∧ (∀ m : Option String,
        submit_digitized (FetchOutcome.json 401 m) = SubmitReport.notLoggedIn)
    ∧ submit_digitized (FetchOutcome.badJson 401) = SubmitReport.notLoggedIn := by
  refine ⟨?_, ?_, rfl, fun m => rfl, rfl⟩
  · intro status m h
    rw [submit_digitized]
    simp [h]
  · intro status h
    rw [submit_digitized]
    simp [h]

/-- Witness for `submit_digitized_spec`: a 500 with an unparsable body
yields the generic error report. -/
theorem submit_digitized_spec_witness :
    (500 ≠ 401)
    ∧ submit_digitized (FetchOutcome.badJson 500) = SubmitReport.submitError :=
  ⟨by decide, submit_digitized_spec.2.1 500 (by decide)⟩

/-- **C9 counterexample.**  Reclassifying to the unregistered kind
`"glacier"` fails, yet the returned feature differs from the input: its
`kind` was already overwritten before the failing registry read. -/
theorem change_layer_kind_counterexample :
    ((get_layer_classes).lookup "glacier" = none)
    ∧ (change_layer_kind exFeatureOk "glacier").2 = false
    ∧ (change_layer_kind exFeatureOk "glacier").1 ≠ exFeatureOk
    ∧ (change_layer_kind exFeatureOk "glacier").1.kind = "glacier" :=
  ⟨by decide, by decide, by decide, by decide⟩

/-- **C9 (amended).**  `change_layer_kind` requires the new kind to be
a registry key and fails otherwise; on failure the feature's `kind` has
already been set to the new kind while color, name, vertices and issues
are untouched; on success `kind`, `color` and `name` are set together
from the registry entry and vertices and issues are unaltered. -/
theorem change_layer_kind_spec (f : Feature) (k : String) :
    ((get_layer_classes).lookup k = none →
        change_layer_kind f k = ({ f with kind := k }, false))
    ∧ (∀ props : ClassProps, (get_layer_classes).lookup k = some props →
        change_layer_kind f k
          = ({ f with kind := k, color := props.color, name := props.name }, true)) := by
  constructor
  · intro h
    simp only [change_layer_kind, h]
  · intro props h
    simp only [change_layer_kind, h]

/-- Witness for `change_layer_kind_spec`: reclassifying the example
feature to the registered kind `"crevasse"` updates kind, color and
name from the registry entry. -/
theorem change_layer_kind_spec_witness :
    change_layer_kind exFeatureOk "crevasse"
      = ({ exFeatureOk with
             kind := "crevasse", color := "#62F700", name := "Crevasse" }, true) :=
  (change_layer_kind_spec exFeatureOk "crevasse").2
    ⟨"Crevasse", "#62F700", "crevasse"⟩ (by decide)

end PFA
